import Mathlib

/-!
Shallow embedding of `atx/device/windows.py`: window discovery (`find_process_id`,
`Window.__init__`), geometry (`Window.rect`, `Window.screen_position`), the capture
pipeline (`Window.screen`), and the cached variant (`FrozenWindow`).

Conventions of the embedding:
* Python strings are `List Char`; `str.lower` is `Char.toLower` mapped over the list.
* Window handles and GDI handles are `Nat` (a real `HWND`/`HDC`/`HBITMAP` is a
  machine word; `0` is the null handle, exactly as the code tests `hwnd == 0`).
* OS calls (`win32gui.*`) are oracles packaged in environment structures
  (`GeoEnv`, `OsEnv`): the code under test is the Python logic, not the OS.
* Exceptions are an explicit `PyErr` in an `Except`.
-/

/-- Errors the embedded code can raise: `WindowsAppNotFoundError`,
Python `NameError` (unbound name), Python `ValueError` (bad `int()`). -/
inductive PyErr where
  | notFound
  | nameError
  | valueError
  deriving DecidableEq, Repr

/-- The `Rect` namedtuple: `('left', 'top', 'right', 'bottom')`, screen coordinates. -/
structure Rect where
  left : Int
  top : Int
  right : Int
  bottom : Int
  deriving DecidableEq, Repr

/-- The `Position` namedtuple: `('left', 'top', 'width', 'height')`. -/
structure Position where
  left : Int
  top : Int
  width : Int
  height : Int
  deriving DecidableEq, Repr

/-! ## Buffer-size arithmetic (lines 184-193 and 268-271)

`size = ((bmp.bmWidth * pixel + pixel - 1)/pixel) * 4 * bmp.bmHeight`, Python 2
integer division. The PIL decode step `Image.frombuffer('RGB', (w, h), buf, 'raw',
'BGRX', 0, 1)` consumes 4 bytes per pixel for `w*h` pixels. -/

/-- Raw buffer size computed by `Window.screen` and
`FrozenWindow.__init_screen_handles`: `((width*bpp + bpp - 1)/bpp) * 4 * height`. -/
def rawBufSize (width bpp height : Nat) : Nat :=
  ((width * bpp + bpp - 1) / bpp) * 4 * height

/-- Bytes read by the `BGRX` decode step: 4 bytes per pixel, `width * height` pixels. -/
def decodeReadBytes (width height : Nat) : Nat :=
  4 * width * height

/-! ## String machinery for `find_process_id` (lines 40-59)

`find_process_id` lowercases the `wmic` output, splits each line on whitespace,
takes the last token as the pid and rejoins the rest with single spaces as the
command line, strips a leading quoted token (or takes the first whitespace token),
and compares against `os.path.normpath(exe_file).lower()`. -/

/-- Python `s.find(ch, 1)`: index of the first occurrence of `ch` at position ≥ 1,
or `-1` when absent. -/
def pyFindFrom1 (c : Char) (s : List Char) : Int :=
  match (s.drop 1).findIdx? (fun x => x == c) with
  | some i => (1 + i : Nat)
  | none => -1

/-- Python slice `s[1:pos]` where `pos` is the result of `find` (so `pos ≥ 1` or
`pos = -1`; a `-1` end index means "up to the last character exclusive"). -/
def pySlice1 (s : List Char) (pos : Int) : List Char :=
  if pos ≥ 0 then (s.take pos.toNat).drop 1 else (s.take (s.length - 1)).drop 1

/-- Python `cmd.split()[0]`: the first whitespace-delimited token. -/
def firstTok (s : List Char) : List Char :=
  (s.dropWhile (fun c => c == ' ')).takeWhile (fun c => !(c == ' '))

/-- Lines 52-56: strip a wrapping quote from the joined command line, or take its
first whitespace token. -/
def stripCmd (cmd : List Char) : List Char :=
  match cmd with
  | [] => []
  | c :: _ =>
    if c == '\'' || c == '"' then pySlice1 cmd (pyFindFrom1 c cmd)
    else firstTok cmd

/-- Modelled from the spec: `os.path.normpath` on Windows (not in `src/`, it is the
Python standard library) — "normalize the path (case-insensitive, canonical
separators)". We model the separator canonicalization: every `/` becomes `\`.
The case folding is done separately by `.lower()` in the source. -/
def normpathWin (s : List Char) : List Char :=
  s.map (fun c => if c == '/' then '\\' else c)

/-- Python `str.lower` over a `List Char` string. -/
def lowerStr (s : List Char) : List Char :=
  s.map Char.toLower

/-- Line 41: `exe_file = os.path.normpath(exe_file).lower()`. -/
def normSelector (exe_file : List Char) : List Char :=
  lowerStr (normpathWin exe_file)

/-- Python `int(tok)` on a token of the (lowercased) `wmic` output: a nonempty
all-digit token parses, anything else raises `ValueError`. -/
def pyInt? (s : List Char) : Option Nat :=
  if s ≠ [] ∧ s.all (fun c => c.isDigit) then
    some (s.foldl (fun acc c => acc * 10 + (c.toNat - 48)) 0)
  else none

/-- Loop body of `find_process_id` (lines 43-59) over pre-tokenized lines: each line
is the result of Python `line.split()` (so an originally blank line is `[]`).
`pid` is the last token, `cmd` the space-join of the rest; empty `cmd` lines are
skipped; a match returns `int(pid)` (raising `ValueError` on a non-numeric token). -/
def findPidLoop (exe : List Char) : List (List (List Char)) → Except PyErr (Option Nat)
  | [] => .ok none
  | [] :: rest => findPidLoop exe rest
  | (t :: ts) :: rest =>
    let pid := (t :: ts).getLast (List.cons_ne_nil t ts)
    let cmd := List.intercalate [' '] (t :: ts).dropLast
    if cmd.isEmpty then findPidLoop exe rest
    else if stripCmd cmd == exe then
      match pyInt? pid with
      | some n => .ok (some n)
      | none => .error .valueError
    else findPidLoop exe rest

/-- `find_process_id(exe_file)` (lines 40-59): the `wmic` listing is passed in as
tokenized lines; the whole output is lowercased (line 43) and the selector is
normalized (line 41) before the scan. -/
def find_process_id (exe_file : List Char) (listing : List (List (List Char))) :
    Except PyErr (Option Nat) :=
  findPidLoop (normSelector exe_file) (listing.map (fun l => l.map lowerStr))

/-- The per-line match condition of the `find_process_id` loop, read off the code:
the line is non-blank, its command part (all tokens but the last, space-joined) is
nonempty, and that command part — quote-stripped or cut at the first whitespace —
equals the already-normalized selector. No separator normalization is applied on
the command side. -/
def matchesLine (exe : List Char) (line : List (List Char)) : Bool :=
  !line.isEmpty &&
    (!(List.intercalate [' '] line.dropLast).isEmpty &&
      (stripCmd (List.intercalate [' '] line.dropLast) == exe))

/-- The pid token of a line: its last whitespace token. -/
def linePid (line : List (List Char)) : List Char := line.getLastD []

/-! ## Window enumeration and `Window.__init__` (lines 64-121)

The OS window enumeration is a list of top-level windows in enumeration order,
each carrying the data the code queries: `GetWindowText`, `IsWindowVisible`,
`IsWindowEnabled`, `GetWindowThreadProcessId`. -/

/-- One top-level window as seen by `EnumWindows` and the `win32gui` queries. -/
structure WinInfo where
  handle : Nat
  title : List Char
  visible : Bool
  enabled : Bool
  pid : Nat
  deriving DecidableEq, Repr

/-- Python list prefix test, used to build substring containment. -/
def isPrefixL : List Char → List Char → Bool
  | [], _ => true
  | _ :: _, [] => false
  | a :: as, b :: bs => a == b && isPrefixL as bs

/-- Python `window_name in title` (line 89): substring containment. -/
def containsSub (pat : List Char) : List Char → Bool
  | [] => pat.isEmpty
  | c :: rest => isPrefixL pat (c :: rest) || containsSub pat rest

/-- `win32gui.FindWindow(None, window_name)` (line 86): handle of the first window
whose title is exactly `window_name`, or the null handle `0`. -/
def findWindowExact (wenv : List WinInfo) (s : List Char) : Nat :=
  match wenv.find? (fun w => w.title == s) with
  | some w => w.handle
  | none => 0

/-- Lines 88-94: enumerate all windows, collecting handles whose title contains
`window_name` as a substring, in enumeration order. -/
def enumTitleMatches (wenv : List WinInfo) (s : List Char) : List Nat :=
  (wenv.filter (fun w => containsSub s w.title)).map (fun w => w.handle)

/-- The `window_name` branch of `Window.__init__` (lines 85-96): exact lookup,
then first substring match, then `WindowsAppNotFoundError` if the handle is
still null. -/
def resolveTitle (wenv : List WinInfo) (s : List Char) : Except PyErr Nat :=
  let h1 := findWindowExact wenv s
  let h2 :=
    if h1 == 0 then
      match (enumTitleMatches wenv s).head? with
      | some h => h
      | none => 0
    else h1
  if h2 == 0 then .error .notFound else .ok h2

/-- The `exe_file` branch of `Window.__init__` (lines 99-114): find the pid, then
the first enumerated window that is visible, enabled and owned by that pid;
`WindowsAppNotFoundError` if the handle is still null. -/
def resolveExe (wenv : List WinInfo) (exe_file : List Char)
    (listing : List (List (List Char))) : Except PyErr Nat :=
  match find_process_id exe_file listing with
  | .error e => .error e
  | .ok none => .error .notFound
  | .ok (some pid) =>
    match (wenv.filter (fun w => w.visible && w.enabled && w.pid == pid)).head? with
    | some w => if w.handle == 0 then .error .notFound else .ok w.handle
    | none => .error .notFound

/-- `Window.__init__` (lines 81-121): the `window_name` branch runs when
`window_name` is given; the `exe_file` branch only when `window_name is None`
(it is an `elif`); with neither selector, `GetDesktopWindow()` is used. -/
def window_init (window_name : Option (List Char)) (exe_file : Option (List Char))
    (wenv : List WinInfo) (listing : List (List (List Char))) (desktop : Nat) :
    Except PyErr Nat :=
  match window_name with
  | some s => resolveTitle wenv s
  | none =>
    match exe_file with
    | some e => resolveExe wenv e listing
    | none => .ok desktop

/-! ## Geometry (lines 123-146)

`win32gui` geometry calls as an oracle environment. -/

/-- The geometry oracles: `GetWindowRect`, `GetClientRect`, `ClientToScreen`. -/
structure GeoEnv where
  getWindowRect : Nat → Rect
  getClientRect : Nat → Rect
  clientToScreen : Nat → Int × Int → Int × Int

/-- A `Window` instance after `__init__`: its two attributes (lines 120-121). -/
structure Window where
  hwnd : Nat
  exclude_border : Bool
  deriving DecidableEq, Repr

/-- The names bound at module level in `atx/device/windows.py`: the implicit
module attributes, the imports (line 6-22), and the module-level defs and
classes. `hwnd` is not among them (and is no Python builtin either). -/
def moduleGlobalNames : List String :=
  ["__name__", "__doc__", "__package__", "__loader__", "__spec__", "__file__",
   "__builtins__", "absolute_import",
   "os", "time", "struct", "win32con", "win32api", "win32gui", "win32process",
   "ctypes", "wintypes", "windll", "Image", "namedtuple", "Bounds", "Display",
   "DeviceMixin", "WindowsAppNotFoundError", "BITMAPINFOHEADER",
   "find_process_id", "Rect", "Position", "Window", "FrozenWindow",
   "WindowsDevice"]

/-- `Window.rect` (lines 123-131) as written: the body reads the name `hwnd`,
which is not a parameter, not a local, and not `self.hwnd`; Python resolves it in
the module's global namespace (`globals`), raising `NameError` when unbound. -/
def Window.rect (w : Window) (env : GeoEnv) (globals : List (String × Nat)) :
    Except PyErr Rect :=
  match globals.lookup "hwnd" with
  | none => .error .nameError
  | some hwnd =>
    if !w.exclude_border then
      .ok (env.getWindowRect hwnd)
    else
      let c := env.getClientRect hwnd
      let lt := env.clientToScreen hwnd (c.left, c.top)
      let rb := env.clientToScreen hwnd (c.right, c.bottom)
      .ok ⟨lt.1, lt.2, rb.1, rb.2⟩

/-- What the spec says `rect` should be (stated from the spec's words, for the
comparison in the claim about the `hwnd` bug): the same computation using the
instance's own handle `w.hwnd`. -/
def rectSpec (w : Window) (env : GeoEnv) : Rect :=
  if !w.exclude_border then
    env.getWindowRect w.hwnd
  else
    let c := env.getClientRect w.hwnd
    let lt := env.clientToScreen w.hwnd (c.left, c.top)
    let rb := env.clientToScreen w.hwnd (c.right, c.bottom)
    ⟨lt.1, lt.2, rb.1, rb.2⟩

/-- `Window.screen_position` (lines 133-146): uses `self.hwnd` (correctly). -/
def Window.screen_position (w : Window) (env : GeoEnv) : Position :=
  let r := env.getWindowRect w.hwnd
  if w.exclude_border then
    let c := env.getClientRect w.hwnd
    let lt := env.clientToScreen w.hwnd (c.left, c.top)
    let rb := env.clientToScreen w.hwnd (c.right, c.bottom)
    ⟨lt.1 - r.left, lt.2 - r.top, rb.1 - lt.1, rb.2 - lt.2⟩
  else
    ⟨0, 0, r.right - r.left, r.bottom - r.top⟩

/-! ## Capture pipeline (`Window.screen`, lines 148-201)

The GDI calls are oracles in `OsEnv`. `Window.screen` is embedded as a run that
records, besides its result, which drawing resources were acquired and which were
released, in order — the claims about resource handling are about exactly that.
Python has no `try/finally` here: an exception at any step before the cleanup
lines (197-199) exits the method with nothing released. The possible raising
step is an explicit parameter `failAt` (an OS call that fails raises). -/

/-- Result of `win32gui.GetObject(hbmp)`: the realized bitmap metadata. -/
structure BmpInfo where
  bmWidth : Nat
  bmHeight : Nat
  bmPlanes : Nat
  bmBitsPixel : Nat
  deriving DecidableEq, Repr

/-- GDI oracles used by the capture pipeline. -/
structure OsEnv where
  getWindowDC : Nat → Nat
  createCompatibleDC : Nat → Nat
  createCompatibleBitmap : Nat → Int → Int → Nat
  getObject : Nat → BmpInfo

/-- Steps of `Window.screen` that can raise, in source order. -/
inductive ScreenStep where
  | getWindowDC
  | createCompatibleDC
  | createCompatibleBitmap
  | selectObject
  | bitBlt
  | getObject
  | getDIBits
  | frombuffer
  | transpose
  deriving DecidableEq, Repr

/-- Source-order index of a step, for "betweenness" statements. -/
def ScreenStep.idx : ScreenStep → Nat
  | .getWindowDC => 0
  | .createCompatibleDC => 1
  | .createCompatibleBitmap => 2
  | .selectObject => 3
  | .bitBlt => 4
  | .getObject => 5
  | .getDIBits => 6
  | .frombuffer => 7
  | .transpose => 8

/-- Outcome of one `Window.screen` call: the resources acquired during the call,
the resources released before it exits (in release order), and either the decoded
image's dimensions or the exception. -/
structure ScreenRun where
  acquired : List Nat
  released : List Nat
  result : Except Unit (Nat × Nat)
  deriving Repr

/-- `Window.screen` (lines 148-201). `failAt = some s` means OS call `s` raises;
`failAt = none` is the normal path. There is no `try/finally` in the source, so a
raise exits the property with `released = []`. On the normal path the cleanup
(lines 197-199) runs `DeleteObject(hbmp); DeleteObject(hdcmem); ReleaseDC(hwnd,
hdcwin)` in that order. -/
def Window.screenRun (w : Window) (geo : GeoEnv) (os : OsEnv)
    (failAt : Option ScreenStep) : ScreenRun :=
  if failAt == some .getWindowDC then ⟨[], [], .error ()⟩ else
  let hdcwin := os.getWindowDC w.hwnd
  if failAt == some .createCompatibleDC then ⟨[hdcwin], [], .error ()⟩ else
  let hdcmem := os.createCompatibleDC hdcwin
  if failAt == some .createCompatibleBitmap then ⟨[hdcwin, hdcmem], [], .error ()⟩ else
  let pos := w.screen_position geo
  let hbmp := os.createCompatibleBitmap hdcwin pos.width pos.height
  let acq := [hdcwin, hdcmem, hbmp]
  match failAt with
  | some _ => ⟨acq, [], .error ()⟩
  | none =>
    let bmp := os.getObject hbmp
    ⟨acq, [hbmp, hdcmem, hdcwin], .ok (bmp.bmWidth, bmp.bmHeight)⟩

/-! ## `FrozenWindow` (lines 209-299)

Construction runs `__init_rect_position` and `__init_screen_handles` once and
stores everything in attributes; `rect` and `screen_position` return the cached
values; `screen` reuses the cached handles; `__del__` releases them. -/

/-- A `FrozenWindow` after `__init__`: the cached attributes. -/
structure FrozenWindow where
  hwnd : Nat
  exclude_border : Bool
  rectC : Rect
  screen_positionC : Position
  hdcwinC : Nat
  hdcmemC : Nat
  hbmpC : Nat
  bufSizeC : Nat
  deriving DecidableEq, Repr

/-- `FrozenWindow.__init_rect_position` (lines 217-232): computes `self._rect` and
`self._screen_position` from the construction-time geometry. -/
def initRectPosition (hwnd : Nat) (exclude_border : Bool) (geo : GeoEnv) :
    Rect × Position :=
  let r := geo.getWindowRect hwnd
  if exclude_border then
    let c := geo.getClientRect hwnd
    let lt := geo.clientToScreen hwnd (c.left, c.top)
    let rb := geo.clientToScreen hwnd (c.right, c.bottom)
    (⟨lt.1, lt.2, rb.1, rb.2⟩, ⟨lt.1 - r.left, lt.2 - r.top, rb.1 - lt.1, rb.2 - lt.2⟩)
  else
    (⟨r.left, r.top, r.right, r.bottom⟩, ⟨0, 0, r.right - r.left, r.bottom - r.top⟩)

/-- `FrozenWindow.__init__` (lines 212-215): `Window.__init__` has already set
`hwnd` and `exclude_border`; then `__init_rect_position` (lines 217-232) and
`__init_screen_handles` (lines 242-277) run once, storing their results. -/
def mkFrozenWindow (hwnd : Nat) (exclude_border : Bool) (geo : GeoEnv) (os : OsEnv) :
    FrozenWindow :=
  let rp := initRectPosition hwnd exclude_border geo
  let hdcwin := os.getWindowDC hwnd
  let hdcmem := os.createCompatibleDC hdcwin
  let hbmp := os.createCompatibleBitmap hdcwin rp.2.width rp.2.height
  let bmp := os.getObject hbmp
  { hwnd := hwnd
    exclude_border := exclude_border
    rectC := rp.1
    screen_positionC := rp.2
    hdcwinC := hdcwin
    hdcmemC := hdcmem
    hbmpC := hbmp
    bufSizeC := rawBufSize bmp.bmWidth bmp.bmBitsPixel bmp.bmHeight }

/-- `FrozenWindow.rect` (lines 234-236): returns the cached `self._rect`. -/
def FrozenWindow.rectF (fw : FrozenWindow) : Rect := fw.rectC

/-- `FrozenWindow.screen_position` (lines 238-240): returns the cached value. -/
def FrozenWindow.screen_positionF (fw : FrozenWindow) : Position :=
  fw.screen_positionC

/-- Outcome of one `FrozenWindow.screen` call: the OS objects it passed to
`BitBlt`/`GetDIBits` and the dimensions of the image it builds. -/
structure CapRun where
  handlesUsed : List Nat
  dims : Int × Int
  deriving DecidableEq, Repr

/-- `FrozenWindow.screen` (lines 279-293). It takes the OS state at capture time
(`geoNow`: current geometry) but the body never queries it — it reads only the
cached attributes: `BitBlt(self._hdcmem, ..., self._hdcwin, ...)`,
`GetDIBits(self._hdcmem, self._hbmp.handle, ...)`, and builds the image as
`frombuffer('RGB', (width, height), ...)` with the cached position's size. -/
def FrozenWindow.screenF (fw : FrozenWindow) (_geoNow : GeoEnv) : CapRun :=
  { handlesUsed := [fw.hdcmemC, fw.hdcwinC, fw.hbmpC]
    dims := (fw.screen_positionC.width, fw.screen_positionC.height) }

/-- `FrozenWindow.__del__` (lines 295-299): the OS objects released by one call of
the destructor, in source order: `DeleteObject(self._hbmp)`,
`DeleteObject(self._hdcmem)`, `ReleaseDC(self.hwnd, self._hdcwin)`. There is no
released-already guard in the source. -/
def FrozenWindow.delReleases (fw : FrozenWindow) : List Nat :=
  [fw.hbmpC, fw.hdcmemC, fw.hdcwinC]

/-! ## Bitmap encode/decode round trip (lines 192-194)

`Image.frombuffer('RGB', (w, h), buf, 'raw', 'BGRX', 0, 1)` reads `w*h` quartets
`B,G,R,pad` row by row as stored; `transpose(Image.FLIP_TOP_BOTTOM)` reverses the
row order. A GDI `GetDIBits` with a positive `biHeight` stores rows bottom-up. -/

/-- An RGB pixel. -/
abbrev PixelRGB := Nat × Nat × Nat

/-- An image as rows of pixels, top-down. -/
abbrev Img := List (List PixelRGB)

/-- One pixel as the 4-byte quartet `B,G,R,pad` of the DIB format. -/
def encodePix (p : PixelRGB) : List Nat :=
  [p.2.2, p.2.1, p.1, 0]

/-- One row of a DIB buffer: the quartets of its pixels, left to right. -/
def encodeRow (row : List PixelRGB) : List Nat :=
  (row.map encodePix).flatten

/-- A bottom-up DIB buffer for a top-down image: rows in reverse order. -/
def encodeBottomUp (img : Img) : List Nat :=
  (img.reverse.map encodeRow).flatten

/-- The `BGRX` raw decoder for one row: each `B,G,R,pad` quartet yields the RGB
pixel `(R, G, B)`; the padding byte is ignored. -/
def decodeRow : List Nat → List PixelRGB
  | b :: g :: r :: _ :: rest => (r, g, b) :: decodeRow rest
  | _ => []

/-- `Image.frombuffer('RGB', (w, h), buf, 'raw', 'BGRX', 0, 1)`: `h` rows of
`4*w` bytes each, decoded in storage order. -/
def frombufferBGRX (w : Nat) : Nat → List Nat → Img
  | 0, _ => []
  | h + 1, buf => decodeRow (buf.take (4 * w)) :: frombufferBGRX w h (buf.drop (4 * w))

/-- `img.transpose(Image.FLIP_TOP_BOTTOM)`: reverse the row order. -/
def flipTopBottom (img : Img) : Img := img.reverse

/-- The decode step of the capture pipeline (lines 193-194): `frombuffer` then the
vertical flip. -/
def pipelineDecode (w h : Nat) (buf : List Nat) : Img :=
  flipTopBottom (frombufferBGRX w h buf)

/-! ## Concrete environments used by witnesses and counterexamples -/

/-- A trivial geometry environment: every window reported at the origin. -/
def geoTriv : GeoEnv :=
  ⟨fun _ => ⟨0, 0, 0, 0⟩, fun _ => ⟨0, 0, 0, 0⟩, fun _ p => p⟩

/-- A small deterministic GDI environment with distinguishable handles. -/
def osTriv : OsEnv :=
  ⟨fun h => h + 100, fun h => h + 1, fun h _ _ => h + 2, fun _ => ⟨2, 2, 1, 32⟩⟩

/-! ## Helper lemmas -/

theorem rawBufSize_eq (width bpp height : Nat) (hb : 0 < bpp) :
    rawBufSize width bpp height = width * 4 * height := by
  unfold rawBufSize
  have h1 : width * bpp + bpp - 1 = bpp * width + (bpp - 1) := by
    rw [Nat.mul_comm width bpp, Nat.add_sub_assoc hb]
  rw [h1, Nat.mul_add_div hb, Nat.div_eq_of_lt (Nat.sub_lt hb Nat.one_pos), Nat.add_zero]

theorem hwnd_not_module_global : "hwnd" ∉ moduleGlobalNames := by decide

theorem lookup_hwnd_eq_none (globals : List (String × Nat))
    (hg : ∀ p ∈ globals, p.1 ∈ moduleGlobalNames) :
    globals.lookup "hwnd" = none := by
  induction globals with
  | nil => rfl
  | cons p t ih =>
    obtain ⟨k, v⟩ := p
    have hp : k ∈ moduleGlobalNames := hg (k, v) (List.mem_cons_self _ _)
    have ht : ∀ q ∈ t, q.1 ∈ moduleGlobalNames :=
      fun q hq => hg q (List.mem_cons_of_mem _ hq)
    have hk : ("hwnd" == k) = false := by
      refine beq_eq_false_iff_ne.mpr ?_
      intro he
      exact hwnd_not_module_global (he ▸ hp)
    simpa [List.lookup, hk] using ih ht

theorem isPrefixL_refl (l : List Char) : isPrefixL l l = true := by
  induction l with
  | nil => rfl
  | cons c t ih => simp [isPrefixL, ih]

theorem containsSub_self (s : List Char) : containsSub s s = true := by
  cases s with
  | nil => rfl
  | cons c t => simp [containsSub, isPrefixL_refl]

theorem linePid_cons (t : List Char) (ts : List (List Char)) :
    linePid (t :: ts) = (t :: ts).getLast (List.cons_ne_nil t ts) := by
  unfold linePid
  rw [List.getLastD_eq_getLast?, List.getLast?_eq_getLast _ (List.cons_ne_nil t ts)]
  rfl

theorem findPidLoop_eq (exe : List Char) (listing : List (List (List Char))) :
    findPidLoop exe listing =
      (match listing.find? (matchesLine exe) with
      | none => .ok none
      | some l =>
        match pyInt? (linePid l) with
        | some n => .ok (some n)
        | none => .error .valueError) := by
  induction listing with
  | nil => rfl
  | cons line rest ih =>
    cases line with
    | nil =>
      rw [List.find?_cons_of_neg _ (by simp [matchesLine])]
      simpa [findPidLoop] using ih
    | cons t ts =>
      by_cases hcmd : (List.intercalate [' '] ((t :: ts).dropLast)).isEmpty = true
      · have hm : matchesLine exe (t :: ts) = false := by
          simp [matchesLine, hcmd]
        rw [List.find?_cons_of_neg _ (by simp [hm])]
        simpa [findPidLoop, hcmd] using ih
      · by_cases hstrip : (stripCmd (List.intercalate [' '] ((t :: ts).dropLast)) == exe) = true
        · have hm : matchesLine exe (t :: ts) = true := by
            simp [matchesLine, hcmd, hstrip]
          rw [List.find?_cons_of_pos _ hm]
          simp [findPidLoop, hcmd, hstrip, linePid_cons]
        · have hm : matchesLine exe (t :: ts) = false := by
            simp [matchesLine, hstrip]
          rw [List.find?_cons_of_neg _ (by simp [hm])]
          simpa [findPidLoop, hcmd, hstrip] using ih

/-! ## Claim theorems -/

/-- C1: the claim says `Window.rect` computes from the instance's own handle
`w.hwnd` and never fails with an unbound-name error. In the source the body reads
the bare name `hwnd` (lines 126-130), which is bound neither locally nor at module
level, so under the module's actual global namespace (any `globals` whose names
are among `moduleGlobalNames`) every evaluation of `rect` raises `NameError`,
for every window and every geometry. The code, not the claim, is wrong: the spec
records this as a known defect. -/
theorem c1_rect_raises_nameError (w : Window) (env : GeoEnv)
    (globals : List (String × Nat))
    (hg : ∀ p ∈ globals, p.1 ∈ moduleGlobalNames) :
    Window.rect w env globals = .error .nameError := by
  unfold Window.rect
  rw [lookup_hwnd_eq_none globals hg]

/-- C1 witness: a concrete window with handle 1, under the module's global
namespace containing no binding for `hwnd`, raises `NameError` from `rect`. -/
theorem c1_witness :
    Window.rect ⟨1, false⟩ geoTriv [] = .error .nameError :=
  c1_rect_raises_nameError ⟨1, false⟩ geoTriv [] (by simp)

/-- C2 counterexample: in a concrete run of `Window.screen` where `GetObject`
(a step between the blit and the decode) raises, three drawing resources were
acquired (handles 101, 102, 103) but the exit releases none of them — the source
has no `try/finally`, so the claim's "released on every exit path" is false. -/
theorem c2_counterexample :
    (Window.screenRun ⟨1, false⟩ geoTriv osTriv (some .getObject)).acquired =
      [101, 102, 103] ∧
    (Window.screenRun ⟨1, false⟩ geoTriv osTriv (some .getObject)).released = [] :=
  ⟨rfl, rfl⟩

/-- C2 (amended): on the normal (non-raising) exit path `Window.screen` releases
all three acquired drawing resources, destroying the bitmap and the memory
context before releasing the window context; but when any step of the pipeline
raises, the call exits releasing nothing. -/
theorem c2_release_paths (w : Window) (geo : GeoEnv) (os : OsEnv) :
    (Window.screenRun w geo os none).acquired =
      [os.getWindowDC w.hwnd,
       os.createCompatibleDC (os.getWindowDC w.hwnd),
       os.createCompatibleBitmap (os.getWindowDC w.hwnd)
         (Window.screen_position w geo).width (Window.screen_position w geo).height] ∧
    (Window.screenRun w geo os none).released =
      [os.createCompatibleBitmap (os.getWindowDC w.hwnd)
         (Window.screen_position w geo).width (Window.screen_position w geo).height,
       os.createCompatibleDC (os.getWindowDC w.hwnd),
       os.getWindowDC w.hwnd] ∧
    (∀ s : ScreenStep, (Window.screenRun w geo os (some s)).released = []) := by
  refine ⟨rfl, rfl, fun s => ?_⟩
  cases s <;> rfl

/-- C3 counterexample: running `FrozenWindow.__del__` twice (a repeated teardown
attempt) releases the cached bitmap twice — across the two calls the bitmap
handle is released 2 times, not exactly once: the destructor has no
released-already guard, so teardown is not idempotent. -/
theorem c3_counterexample :
    (((mkFrozenWindow 1 false geoTriv osTriv).delReleases ++
      (mkFrozenWindow 1 false geoTriv osTriv).delReleases).count
        (mkFrozenWindow 1 false geoTriv osTriv).hbmpC) = 2 := by decide

/-- C3 (amended): a single teardown of a successfully constructed `FrozenWindow`
releases exactly its three construction-time resources, each exactly once, in the
order bitmap, memory context, window context — independent of whether `screen`
was ever called; but teardown is not idempotent: each further call releases the
same handles again. -/
theorem c3_single_teardown (fw : FrozenWindow)
    (h1 : fw.hbmpC ≠ fw.hdcmemC) (h2 : fw.hbmpC ≠ fw.hdcwinC)
    (h3 : fw.hdcmemC ≠ fw.hdcwinC) :
    fw.delReleases = [fw.hbmpC, fw.hdcmemC, fw.hdcwinC] ∧
    fw.delReleases.count fw.hbmpC = 1 ∧
    fw.delReleases.count fw.hdcmemC = 1 ∧
    fw.delReleases.count fw.hdcwinC = 1 := by
  refine ⟨rfl, ?_, ?_, ?_⟩ <;>
    simp [FrozenWindow.delReleases, List.count_cons, List.count_nil,
      h1, h2, h3, Ne.symm h1, Ne.symm h2, Ne.symm h3]

/-- C3 witness: the concrete cached window built in `geoTriv`/`osTriv` has the
three distinct handles 103, 102, 101, and one teardown releases each once. -/
theorem c3_witness :
    (mkFrozenWindow 1 false geoTriv osTriv).delReleases =
      [(mkFrozenWindow 1 false geoTriv osTriv).hbmpC,
       (mkFrozenWindow 1 false geoTriv osTriv).hdcmemC,
       (mkFrozenWindow 1 false geoTriv osTriv).hdcwinC] ∧
    (mkFrozenWindow 1 false geoTriv osTriv).delReleases.count
      (mkFrozenWindow 1 false geoTriv osTriv).hbmpC = 1 ∧
    (mkFrozenWindow 1 false geoTriv osTriv).delReleases.count
      (mkFrozenWindow 1 false geoTriv osTriv).hdcmemC = 1 ∧
    (mkFrozenWindow 1 false geoTriv osTriv).delReleases.count
      (mkFrozenWindow 1 false geoTriv osTriv).hdcwinC = 1 :=
  c3_single_teardown _ (by decide) (by decide) (by decide)

/-- C4: for positive width, height and bits-per-pixel, the raw-buffer size
`((width*bpp + bpp - 1)/bpp) * 4 * height` computed by both capture paths is the
exact integer `⌈width*bpp / bpp⌉ * 4 * height` (Mathlib's `Nat` ceiling
division), and the `BGRX` decode of `width*height` pixels reads exactly that many
bytes — no overrun. -/
theorem c4_buffer_size (width height bpp : Nat) (_hw : 0 < width) (_hh : 0 < height)
    (hb : 0 < bpp) :
    rawBufSize width bpp height = (width * bpp ⌈/⌉ bpp) * 4 * height ∧
    decodeReadBytes width height = rawBufSize width bpp height := by
  have he := rawBufSize_eq width bpp height hb
  have hc : width * bpp ⌈/⌉ bpp = width := by
    rw [Nat.ceilDiv_eq_add_pred_div]
    have h1 : width * bpp + bpp - 1 = bpp * width + (bpp - 1) := by
      rw [Nat.mul_comm width bpp, Nat.add_sub_assoc hb]
    rw [h1, Nat.mul_add_div hb, Nat.div_eq_of_lt (Nat.sub_lt hb Nat.one_pos),
      Nat.add_zero]
  refine ⟨by rw [he, hc], ?_⟩
  rw [he]
  unfold decodeReadBytes
  ring

/-- C4 witness: a 2×3 bitmap at 32 bits per pixel. -/
theorem c4_witness :
    rawBufSize 2 32 3 = (2 * 32 ⌈/⌉ 32) * 4 * 3 ∧
    decodeReadBytes 2 3 = rawBufSize 2 32 3 :=
  c4_buffer_size 2 3 32 (by decide) (by decide) (by decide)

/-- C6 counterexample: the process command line's first token is `c:/app/x.exe`
(forward slashes) and the selector is `C:\App\x.exe`. After the claim's
normalization — lowercase and canonical separators on both sides — the token
equals the normalized selector, so the claim demands pid 200; but
`find_process_id` normalizes only the selector and compares the token verbatim
(lowercased), so it returns no match. -/
theorem c6_counterexample :
    find_process_id "C:\\App\\x.exe".data [["c:/app/x.exe".data, "200".data]] =
      .ok none ∧
    lowerStr (normpathWin (stripCmd (lowerStr "c:/app/x.exe".data))) =
      normSelector "C:\\App\\x.exe".data :=
  ⟨rfl, rfl⟩

/-- C6 (amended): `find_process_id` returns the `int` of the pid token of the
first listing line whose command part — lowercased, quote-stripped or cut at the
first whitespace, with no separator normalization on the command side — equals
the normalized selector (`normpath` + lowercase), and no pid when no line
matches; `Window.__init__` then resolves to the first enumerated window that is
visible, enabled and owned by that pid, and raises `WindowsAppNotFoundError`
when no pid or no such window is found. -/
theorem c6_exe_resolution (exe : List Char) (listing : List (List (List Char)))
    (wenv : List WinInfo) :
    (find_process_id exe listing =
      (match (listing.map (fun l => l.map lowerStr)).find?
          (matchesLine (normSelector exe)) with
      | none => .ok none
      | some l =>
        match pyInt? (linePid l) with
        | some n => .ok (some n)
        | none => .error .valueError)) ∧
    (find_process_id exe listing = .ok none →
      resolveExe wenv exe listing = .error .notFound) ∧
    (∀ p, find_process_id exe listing = .ok (some p) →
      (∀ w, wenv.find? (fun x => x.visible && x.enabled && x.pid == p) = some w →
        w.handle ≠ 0 → resolveExe wenv exe listing = .ok w.handle) ∧
      (wenv.find? (fun x => x.visible && x.enabled && x.pid == p) = none →
        resolveExe wenv exe listing = .error .notFound)) := by
  refine ⟨findPidLoop_eq _ _, ?_, ?_⟩
  · intro hnone
    unfold resolveExe
    rw [hnone]
  · intro p hsome
    constructor
    · intro w hfind hne
      unfold resolveExe
      rw [hsome]
      dsimp only
      rw [List.filter_head?, hfind]
      simp [hne]
    · intro hnone
      unfold resolveExe
      rw [hsome]
      dsimp only
      rw [List.filter_head?, hnone]

/-- C6 witness: the spec's executable-matching example — a quoted command line
`"c:\app\x.exe" --flag` with pid 100 listed first, a bare `c:\app\x.exe` with
pid 200 second; the selector `C:\App\x.exe` matches the first listed pid, 100,
and resolution returns its visible, enabled window, handle 7. -/
theorem c6_witness :
    resolveExe [⟨7, "x".data, true, true, 100⟩] "C:\\App\\x.exe".data
      [["\"c:\\app\\x.exe\"".data, "--flag".data, "100".data],
       ["c:\\app\\x.exe".data, "200".data]] = .ok 7 :=
  (((c6_exe_resolution "C:\\App\\x.exe".data
      [["\"c:\\app\\x.exe\"".data, "--flag".data, "100".data],
       ["c:\\app\\x.exe".data, "200".data]]
      [⟨7, "x".data, true, true, 100⟩]).2.2 100 (by rfl)).1
    ⟨7, "x".data, true, true, 100⟩ (by decide) (by decide))

/-- C7: `Window.screen_position` returns, when `exclude_border` is true, the
content offset `(contentLeft - outerLeft, contentTop - outerTop)` and the content
size `(contentRight - contentLeft, contentBottom - contentTop)` with the content
corners taken in absolute screen coordinates (`ClientToScreen` of the client
rectangle's corners); and when `exclude_border` is false, `(0, 0)` with the outer
rectangle's size. -/
theorem c7_screen_position (w : Window) (env : GeoEnv) :
    Window.screen_position w env =
      (if w.exclude_border then
        let outer := env.getWindowRect w.hwnd
        let c := env.getClientRect w.hwnd
        let contentLT := env.clientToScreen w.hwnd (c.left, c.top)
        let contentRB := env.clientToScreen w.hwnd (c.right, c.bottom)
        Position.mk (contentLT.1 - outer.left) (contentLT.2 - outer.top)
          (contentRB.1 - contentLT.1) (contentRB.2 - contentLT.2)
      else
        Position.mk 0 0
          ((env.getWindowRect w.hwnd).right - (env.getWindowRect w.hwnd).left)
          ((env.getWindowRect w.hwnd).bottom - (env.getWindowRect w.hwnd).top)) := by
  unfold Window.screen_position
  cases hb : w.exclude_border <;> simp [hb]

/-- C8: for a `FrozenWindow`, `rect` and `screen_position` are the values computed
once at construction by `__init_rect_position`, every later read returns exactly
those cached values, and any two `screen` calls — even against different
capture-time OS geometry — use the identical cached resource handles and build
images of identical dimensions, namely the cached position's width and height. -/
theorem c8_frozen_caching (hwnd : Nat) (eb : Bool) (geo : GeoEnv) (os : OsEnv)
    (geo1 geo2 : GeoEnv) :
    (mkFrozenWindow hwnd eb geo os).rectF = (initRectPosition hwnd eb geo).1 ∧
    (mkFrozenWindow hwnd eb geo os).screen_positionF =
      (initRectPosition hwnd eb geo).2 ∧
    ((mkFrozenWindow hwnd eb geo os).screenF geo1).handlesUsed =
      ((mkFrozenWindow hwnd eb geo os).screenF geo2).handlesUsed ∧
    ((mkFrozenWindow hwnd eb geo os).screenF geo1).dims =
      ((initRectPosition hwnd eb geo).2.width, (initRectPosition hwnd eb geo).2.height) :=
  ⟨rfl, rfl, rfl, rfl⟩

/-- C5: title resolution. If some window's exact title equals the selector,
`Window.__init__` resolves to (the first) such window's handle; otherwise it
resolves to the first window in enumeration order whose title contains the
selector as a substring; if no title contains it, it raises
`WindowsAppNotFoundError`; and a successful resolution never yields the null
handle. -/
theorem c5_title_resolution (wenv : List WinInfo) (s : List Char)
    (h0 : ∀ w ∈ wenv, w.handle ≠ 0) :
    (∀ w, wenv.find? (fun x => x.title == s) = some w →
        resolveTitle wenv s = .ok w.handle) ∧
    (wenv.find? (fun x => x.title == s) = none →
      ∀ w, wenv.find? (fun x => containsSub s x.title) = some w →
        resolveTitle wenv s = .ok w.handle) ∧
    (wenv.find? (fun x => containsSub s x.title) = none →
      resolveTitle wenv s = .error .notFound) ∧
    (∀ h, resolveTitle wenv s = .ok h → h ≠ 0) := by
  refine ⟨?_, ?_, ?_, ?_⟩
  · intro w hfind
    have hne : w.handle ≠ 0 := h0 w (List.mem_of_find?_eq_some hfind)
    unfold resolveTitle findWindowExact
    rw [hfind]
    simp [hne]
  · intro hnone w hfind
    have hne : w.handle ≠ 0 := h0 w (List.mem_of_find?_eq_some hfind)
    unfold resolveTitle findWindowExact enumTitleMatches
    rw [hnone, List.head?_map, List.filter_head?, hfind]
    simp [hne]
  · intro hnone
    have hexact : wenv.find? (fun x => x.title == s) = none := by
      rw [List.find?_eq_none] at hnone ⊢
      intro x hx hbeq
      have ht : x.title = s := by simpa using hbeq
      exact hnone x hx (by simp [ht, containsSub_self])
    unfold resolveTitle findWindowExact enumTitleMatches
    rw [hexact, List.head?_map, List.filter_head?, hnone]
    rfl
  · intro h hres
    have aux : ∀ a : Nat,
        (if a == 0 then (Except.error PyErr.notFound : Except PyErr Nat)
          else Except.ok a) = Except.ok h → h ≠ 0 := by
      intro a ha hh
      subst hh
      by_cases hz : a = 0
      · simp [hz] at ha
      · simp [hz] at ha
    exact aux _ hres

/-- C5 witness: with enumeration order `My Notepad App` (handle 1), `Notepad`
(handle 2), `Calc` (handle 3), the selector `Notepad` resolves to the exact
match, handle 2, not to the earlier substring match. -/
theorem c5_witness :
    resolveTitle
      [⟨1, "My Notepad App".data, true, true, 100⟩,
       ⟨2, "Notepad".data, true, true, 101⟩,
       ⟨3, "Calc".data, true, true, 102⟩] "Notepad".data = .ok 2 :=
  (c5_title_resolution
      [⟨1, "My Notepad App".data, true, true, 100⟩,
       ⟨2, "Notepad".data, true, true, 101⟩,
       ⟨3, "Calc".data, true, true, 102⟩] "Notepad".data (by decide)).1
    ⟨2, "Notepad".data, true, true, 101⟩ (by decide)

theorem encodeRow_cons (p : PixelRGB) (t : List PixelRGB) :
    encodeRow (p :: t) = encodePix p ++ encodeRow t := by
  simp [encodeRow]

theorem encodeRow_length (row : List PixelRGB) :
    (encodeRow row).length = 4 * row.length := by
  induction row with
  | nil => rfl
  | cons p t ih =>
    rw [encodeRow_cons, List.length_append, ih]
    simp [encodePix]
    omega

theorem decodeRow_encodeRow (row : List PixelRGB) :
    decodeRow (encodeRow row) = row := by
  induction row with
  | nil => rfl
  | cons p t ih =>
    obtain ⟨r, g, b⟩ := p
    rw [encodeRow_cons]
    simp [encodePix, decodeRow, ih]

theorem frombuffer_encode (w : Nat) (rows : List (List PixelRGB))
    (hw : ∀ r ∈ rows, r.length = w) :
    frombufferBGRX w rows.length ((rows.map encodeRow).flatten) = rows := by
  induction rows with
  | nil => rfl
  | cons r t ih =>
    have hr : r.length = w := hw r (List.mem_cons_self _ _)
    have ht : ∀ x ∈ t, x.length = w := fun x hx => hw x (List.mem_cons_of_mem _ hx)
    have hlen : (encodeRow r).length = 4 * w := by rw [encodeRow_length, hr]
    show decodeRow ((encodeRow r ++ (t.map encodeRow).flatten).take (4 * w)) ::
        frombufferBGRX w t.length ((encodeRow r ++ (t.map encodeRow).flatten).drop (4 * w)) =
      r :: t
    rw [List.take_left' hlen, List.drop_left' hlen, decodeRow_encodeRow, ih ht]

/-- C9: encoding a width×height RGB pattern as a bottom-up buffer of `B,G,R,pad`
quartets and decoding it through the pipeline's decode step (`BGRX` rows, then
vertical flip) reproduces the original pattern in top-down row order; and the
vertical flip is an involution. -/
theorem c9_roundtrip (w : Nat) (img : Img) (hw : ∀ row ∈ img, row.length = w) :
    pipelineDecode w img.length (encodeBottomUp img) = img ∧
    (∀ im : Img, flipTopBottom (flipTopBottom im) = im) := by
  constructor
  · unfold pipelineDecode encodeBottomUp flipTopBottom
    have hrev : ∀ r ∈ img.reverse, r.length = w :=
      fun r hr => hw r (List.mem_reverse.mp hr)
    have hlen : img.length = img.reverse.length := (List.length_reverse img).symm
    rw [hlen, frombuffer_encode w img.reverse hrev, List.reverse_reverse]
  · intro im
    unfold flipTopBottom
    exact List.reverse_reverse im

/-- C9 witness: a concrete 2×2 RGB pattern survives the encode/decode round trip,
and the flip is its own inverse. -/
theorem c9_witness :
    pipelineDecode 2 [[(1, 2, 3), (4, 5, 6)], [(7, 8, 9), (10, 11, 12)]].length
      (encodeBottomUp [[(1, 2, 3), (4, 5, 6)], [(7, 8, 9), (10, 11, 12)]]) =
      [[(1, 2, 3), (4, 5, 6)], [(7, 8, 9), (10, 11, 12)]] ∧
    (∀ im : Img, flipTopBottom (flipTopBottom im) = im) :=
  c9_roundtrip 2 [[(1, 2, 3), (4, 5, 6)], [(7, 8, 9), (10, 11, 12)]] (by decide)

/-- C10: when both `window_name` and `exe_file` are supplied, `Window.__init__`
ignores the executable selector entirely (the `exe_file` branch is an `elif`):
resolution equals resolution with the title alone, and a title-lookup failure
raises `WindowsAppNotFoundError` even when the executable selector would have
resolved. -/
theorem c10_title_precedence (s e : List Char) (wenv : List WinInfo)
    (listing : List (List (List Char))) (desktop : Nat) :
    window_init (some s) (some e) wenv listing desktop =
      window_init (some s) none wenv listing desktop ∧
    (resolveTitle wenv s = .error .notFound →
      window_init (some s) (some e) wenv listing desktop = .error .notFound) :=
  ⟨rfl, fun h => h⟩

/-- C10 witness: the title `notepad` matches no window, so construction fails with
`WindowsAppNotFoundError`, although the supplied executable selector names a
running process (pid 200) owning the visible, enabled window 5. -/
theorem c10_witness :
    window_init (some "notepad".data) (some "c:\\app\\x.exe".data)
      [⟨5, "calc".data, true, true, 200⟩] [["c:\\app\\x.exe".data, "200".data]] 9 =
      .error .notFound :=
  (c10_title_precedence "notepad".data "c:\\app\\x.exe".data
    [⟨5, "calc".data, true, true, 200⟩] [["c:\\app\\x.exe".data, "200".data]] 9).2
    (by rfl)
